import Mathlib

/-!
Verification of the polychromatic Middleman façade and the UndervoltBackend
stub, shallowly embedded from `polychromatic/middleman.py` and
`polychromatic/backends/undervolt.py`.

Stateful Python methods become explicit state-passing functions on a
`Middleman` record; methods whose loops call into backend objects also
return a trace (the list of backend ids whose `get_devices()` was called),
so that claims about which backends get queried can be stated.
-/

namespace Polychromatic

/-- Fixed backend identifier string used by `Middleman.init` for OpenRazer. -/
def openrazer_id : String := "openrazer"

/-- Fixed backend identifier string used by `Middleman.init` for undervolt
(`UndervoltBackend.__init__` sets `self.backend_id = "undervolt"`). -/
def undervolt_id : String := "undervolt"

/-- A `Backend.DeviceItem`: the fields of device objects that
`middleman.py` and `undervolt.py` read or write.  The `backend`
back-reference stores the owning backend's id (the Python code assigns the
backend object itself; only its identity matters to the embedded code). -/
structure DeviceItem where
  name : String
  serial : String
  form_factor : String
  real_image : String
  backend : Option String
  deriving DecidableEq, Repr

/-- The variant of a `Backend.Option` object: in Python this is which of the
classes `EffectOption`, `SliderOption`, `ToggleOption`,
`MultipleChoiceOption` the object is an instance of. -/
inductive OptionKind where
  | effect
  | slider
  | toggle
  | multipleChoice
  deriving DecidableEq, Repr, BEq

/-- A `Backend.Option.Parameter`: the fields middleman.py reads. -/
structure Parameter where
  data : String
  active : Bool
  default : Bool
  colours_required : Nat
  deriving DecidableEq, Repr

/-- A `Backend.Option` object, tagged with its variant (`kind` plays the
role of the Python `isinstance` checks). -/
structure OptionItem where
  uid : String
  kind : OptionKind
  active : Bool
  value : Int
  parameters : List Parameter
  deriving DecidableEq, Repr

/-- A `Backend.DeviceItem.Zone`: a named lighting region holding options. -/
structure Zone where
  options : List OptionItem
  deriving DecidableEq, Repr

/-- The behaviour of a backend object as observed by `Middleman`:
the results of `get_devices()` (where `none` models a non-list return, which
`_reload_device_cache_if_empty` skips via its `type(device_list) == list`
check), `get_device_by_name(name)` and `get_device_by_serial(serial)`
(where `none` models any return that is not a `Backend.DeviceItem`). -/
structure BackendBehaviour where
  devices : Option (List DeviceItem)
  byName : String → Option DeviceItem
  bySerial : String → Option DeviceItem

/-- An initialized backend object held by `Middleman`: its `backend_id`
attribute plus its observable behaviour. -/
structure BackendObj where
  backend_id : String
  devices : Option (List DeviceItem)
  byName : String → Option DeviceItem
  bySerial : String → Option DeviceItem

/-- Builds the backend object constructed by `Middleman.init`: the class
constructor fixes `backend_id`, the behaviour is the backend's own. -/
def mkBackend (id : String) (bh : BackendBehaviour) : BackendObj :=
  { backend_id := id
    devices := bh.devices
    byName := bh.byName
    bySerial := bh.bySerial }

/-- The state of a `Middleman` object (`Middleman.__init__`):
`backends` (initialized `Backend()` objects), `bad_init` (backends whose
`init()` returned falsy), `not_installed` (backend id strings whose import
raised `ImportError`/`ModuleNotFoundError`), `troubleshooters` (ids with a
troubleshooter), `import_errors` (id/message pairs for other exceptions),
and the `device_cache` list. -/
structure Middleman where
  backends : List BackendObj
  bad_init : List BackendObj
  not_installed : List String
  troubleshooters : List String
  import_errors : List (String × String)
  device_cache : List DeviceItem

/-- A fresh `Middleman()`: every collection empty. -/
def Middleman.new : Middleman :=
  { backends := []
    bad_init := []
    not_installed := []
    troubleshooters := []
    import_errors := []
    device_cache := [] }

/-- The outcome of one `try:` block of `Middleman.init` for one backend:
the module imported and `backend.init()` returned truthy (`success`), it
returned falsy (`initFalse`), an `ImportError`/`ModuleNotFoundError` was
raised (`importError`), or any other exception was raised (`otherError`,
carrying `common.get_exception_as_string(e)`). -/
inductive InitOutcome where
  | success (bh : BackendBehaviour)
  | initFalse (bh : BackendBehaviour)
  | importError
  | otherError (message : String)

/-- One `try:`/`except` block of `Middleman.init`, classifying one backend
attempt into the collection its outcome selects. -/
def Middleman.attemptBackend (st : Middleman) (id : String) (o : InitOutcome) : Middleman :=
  match o with
  | InitOutcome.success bh => { st with backends := st.backends ++ [mkBackend id bh] }
  | InitOutcome.initFalse bh => { st with bad_init := st.bad_init ++ [mkBackend id bh] }
  | InitOutcome.importError => { st with not_installed := st.not_installed ++ [id] }
  | InitOutcome.otherError msg => { st with import_errors := st.import_errors ++ [(id, msg)] }

/-- `Middleman.init`: attempts the openrazer backend, then the undervolt
backend, then registers the openrazer troubleshooter (the lookup in
`TROUBLESHOOT_MODULES` always succeeds, so the `except NameError` arm is
dead).  The construction and `init()` of each backend is summarised by its
`InitOutcome`; the `try`/`except` classification is total, so no exception
escapes to the caller. -/
def Middleman.init (st : Middleman) (openrazer_outcome undervolt_outcome : InitOutcome) : Middleman :=
  let st1 := st.attemptBackend openrazer_id openrazer_outcome
  let st2 := st1.attemptBackend undervolt_id undervolt_outcome
  { st2 with troubleshooters := st2.troubleshooters ++ [openrazer_id] }

/-- One iteration of the loop in `Middleman._reload_device_cache_if_empty`:
call `backend.get_devices()` (recorded in the trace), skip results that are
not lists, otherwise assign `device.backend = backend` on every device and
append the list to the accumulated cache. -/
def fill_step (p : List DeviceItem × List String) (b : BackendObj) : List DeviceItem × List String :=
  let trace := p.2 ++ [b.backend_id]
  match b.devices with
  | none => (p.1, trace)
  | some device_list =>
      (p.1 ++ device_list.map (fun d => { d with backend := some b.backend_id }), trace)

/-- The loop of `Middleman._reload_device_cache_if_empty` over the backends
list, threading the cache-so-far and the trace of backends queried. -/
def fill_devices (acc : List DeviceItem × List String) (backends : List BackendObj) :
    List DeviceItem × List String :=
  backends.foldl fill_step acc

/-- `Middleman._reload_device_cache_if_empty`: a non-empty cache returns
immediately (no backend calls); an empty cache is refilled from every
backend.  Returns the new state and the trace of backend ids whose
`get_devices()` was called. -/
def Middleman.reload_device_cache_if_empty (st : Middleman) : Middleman × List String :=
  if st.device_cache = [] then
    let r := fill_devices (st.device_cache, []) st.backends
    ({ st with device_cache := r.1 }, r.2)
  else
    (st, [])

/-- `Middleman.invalidate_cache`: sets `device_cache = []`, nothing else. -/
def Middleman.invalidate_cache (st : Middleman) : Middleman :=
  { st with device_cache := [] }

/-- `Middleman.reload_device_cache`: sets `device_cache = []` and then calls
`_reload_device_cache_if_empty`, eagerly refilling the cache. -/
def Middleman.reload_device_cache (st : Middleman) : Middleman × List String :=
  let st1 : Middleman := { st with device_cache := [] }
  st1.reload_device_cache_if_empty

/-- `Middleman.get_devices`: calls `_reload_device_cache_if_empty` and
returns `device_cache`.  Result: the returned list, the new state, and the
trace of backend ids queried. -/
def Middleman.get_devices (st : Middleman) : List DeviceItem × Middleman × List String :=
  let r := st.reload_device_cache_if_empty
  (r.1.device_cache, r.1, r.2)

/-- First non-`none` result of `f` over a list, in order: the shape of the
lookup loops in `get_device_by_name` and `get_device_by_serial`. -/
def first_some (f : α → Option β) : List α → Option β
  | [] => none
  | x :: rest =>
      match f x with
      | some y => some y
      | none => first_some f rest

/-- `Middleman.get_device_by_name`: asks each backend in order; returns the
first result that is a `Backend.DeviceItem`, else `None`. -/
def Middleman.get_device_by_name (st : Middleman) (name : String) : Option DeviceItem :=
  first_some (fun b => b.byName name) st.backends

/-- `Middleman.get_device_by_serial`: asks each backend in order; returns
the first result that is a `Backend.DeviceItem`, else `None`. -/
def Middleman.get_device_by_serial (st : Middleman) (serial : String) : Option DeviceItem :=
  first_some (fun b => b.bySerial serial) st.backends

/-- First element of a list satisfying `pred`, in order: the shape of the
scan loops in `get_active_effect`, `get_active_parameter` and
`get_default_parameter`. -/
def first_match (pred : α → Bool) : List α → Option α
  | [] => none
  | x :: rest => if pred x then some x else first_match pred rest

/-- The test `isinstance(option, Backend.EffectOption)`. -/
def is_effect_option (o : OptionItem) : Bool :=
  o.kind == OptionKind.effect

/-- `Middleman.get_active_effect`: first option in the zone that is an
`EffectOption` and has `active` set; implicitly `None` otherwise. -/
def Middleman.get_active_effect (zone : Zone) : Option OptionItem :=
  first_match (fun o => is_effect_option o && o.active) zone.options

/-- `Middleman.get_active_parameter`: first parameter of the option with
`active` set; implicitly `None` otherwise. -/
def Middleman.get_active_parameter (o : OptionItem) : Option Parameter :=
  first_match (fun p => p.active) o.parameters

/-- `Middleman.get_default_parameter`: `None` for an empty parameter list;
else the first parameter with `default` set; else `option.parameters[0]`. -/
def Middleman.get_default_parameter (o : OptionItem) : Option Parameter :=
  match o.parameters with
  | [] => none
  | p0 :: rest =>
      match first_match (fun p => p.default) (p0 :: rest) with
      | some p => some p
      | none => some p0

/-- The attribute state of an `UndervoltBackend` object as set by its
constructor; `apply`/`save` receive and return this state. -/
structure UndervoltBackend where
  backend_id : String
  name : String
  logo : String
  version : String
  project_url : String
  bug_url : String
  releases_url : String
  license : String
  deriving DecidableEq, Repr

/-- A freshly constructed `UndervoltBackend` (its `__init__`). -/
def UndervoltBackend.new : UndervoltBackend :=
  { backend_id := undervolt_id
    name := "UndervoltBackend"
    logo := "openrazer.svg"
    version := "0.0.0"
    project_url := "https://openrazer.github.io"
    bug_url := "https://github.com/openrazer/openrazer/issues"
    releases_url := "https://github.com/openrazer/openrazer/releases"
    license := "GPLv2" }

/-- `UndervoltBackend.init`: returns `True`, touches nothing. -/
def UndervoltBackend.init (_ : UndervoltBackend) : Bool :=
  true

/-- `UndervoltBackend.apply`: emits one debug line and changes no state.
Result: the (unchanged) backend state and the emitted debug string. -/
def UndervoltBackend.apply (self : UndervoltBackend) : UndervoltBackend × String :=
  (self, "Apply undervolting settings.")

/-- `UndervoltBackend.save`: emits one debug line and changes no state. -/
def UndervoltBackend.save (self : UndervoltBackend) : UndervoltBackend × String :=
  (self, "Save undervolting settings.")

/-- `UndervoltBackend.get_devices`: builds a `CpuDeviceItem` from the CPU
brand string, but the `devices.append(device)` line is commented out in the
source, so the initial empty list is returned. -/
def UndervoltBackend.get_devices (cpu_brand : String) : List DeviceItem :=
  let devices : List DeviceItem := []
  let _device : DeviceItem :=
    { name := cpu_brand
      serial := ""
      form_factor := "cpu"
      real_image := ""
      backend := none }
  devices

/-- The undervolt backend as a `BackendObj` seen by `Middleman`:
`get_devices()` returns its (empty) list, and `get_device_by_name` /
`get_device_by_serial` have empty bodies, i.e. return `None`. -/
def undervolt_backend_obj (cpu_brand : String) : BackendObj :=
  { backend_id := undervolt_id
    devices := some (UndervoltBackend.get_devices cpu_brand)
    byName := fun _ => none
    bySerial := fun _ => none }

/-! Helper lemmas about the generic scan/fold shapes. -/

/-- A first-match scan over a list with no matching element returns `none`. -/
theorem first_match_eq_none_of (pred : α → Bool) :
    ∀ l : List α, (∀ x ∈ l, pred x = false) → first_match pred l = none
  | [], _ => rfl
  | x :: rest, h => by
    have hx : pred x = false := h x (List.mem_cons_self x rest)
    simp only [first_match, hx, Bool.false_eq_true, if_false]
    exact first_match_eq_none_of pred rest (fun y hy => h y (List.mem_cons_of_mem x hy))

/-- A first-match scan returns the match that every earlier element misses. -/
theorem first_match_of_prefix (pred : α → Bool) :
    ∀ (l1 : List α) (x : α) (l2 : List α), pred x = true →
      (∀ y ∈ l1, pred y = false) → first_match pred (l1 ++ x :: l2) = some x
  | [], x, l2, hx, _ => by simp [first_match, hx]
  | y :: l1, x, l2, hx, h => by
    have hy : pred y = false := h y (List.mem_cons_self y l1)
    simp only [List.cons_append, first_match, hy, Bool.false_eq_true, if_false]
    exact first_match_of_prefix pred l1 x l2 hx (fun z hz => h z (List.mem_cons_of_mem y hz))

/-- When exactly one element matches, the first-match scan returns it. -/
theorem first_match_of_unique (pred : α → Bool) :
    ∀ (l : List α) (x : α), x ∈ l → pred x = true →
      (∀ y ∈ l, pred y = true → y = x) → first_match pred l = some x
  | [], x, hmem, _, _ => absurd hmem (List.not_mem_nil x)
  | y :: rest, x, hmem, hx, huniq => by
    by_cases hy : pred y = true
    · have hyx : y = x := huniq y (List.mem_cons_self y rest) hy
      subst hyx
      simp [first_match, hy]
    · have hyf : pred y = false := by
        cases hpy : pred y with
        | false => rfl
        | true => exact absurd hpy hy
      have hxrest : x ∈ rest := by
        rcases List.mem_cons.mp hmem with h | h
        · exfalso
          rw [h] at hx
          rw [hx] at hyf
          simp at hyf
        · exact h
      simp only [first_match, hyf, Bool.false_eq_true, if_false]
      exact first_match_of_unique pred rest x hxrest hx
        (fun z hz hpz => huniq z (List.mem_cons_of_mem y hz) hpz)

/-- A first-some scan over a list on which `f` always yields `none`
returns `none`. -/
theorem first_some_eq_none_of (f : α → Option β) :
    ∀ l : List α, (∀ x ∈ l, f x = none) → first_some f l = none
  | [], _ => rfl
  | x :: rest, h => by
    have hx : f x = none := h x (List.mem_cons_self x rest)
    simp only [first_some, hx]
    exact first_some_eq_none_of f rest (fun y hy => h y (List.mem_cons_of_mem x hy))

/-- A first-some scan returns the hit that every earlier element misses. -/
theorem first_some_of_prefix (f : α → Option β) :
    ∀ (l1 : List α) (x : α) (l2 : List α) (y : β), f x = some y →
      (∀ z ∈ l1, f z = none) → first_some f (l1 ++ x :: l2) = some y
  | [], x, l2, y, hx, _ => by simp [first_some, hx]
  | z :: l1, x, l2, y, hx, h => by
    have hz : f z = none := h z (List.mem_cons_self z l1)
    simp only [List.cons_append, first_some, hz]
    exact first_some_of_prefix f l1 x l2 y hx (fun w hw => h w (List.mem_cons_of_mem z hw))

/-- Splitting the cache-fill fold over an appended backend list. -/
theorem fill_devices_append (acc : List DeviceItem × List String) (l1 l2 : List BackendObj) :
    fill_devices acc (l1 ++ l2) = fill_devices (fill_devices acc l1) l2 := by
  simp [fill_devices, List.foldl_append]

/-- The trace component of the cache-fill fold records every backend id,
in order: each backend in the list has `get_devices()` called exactly once. -/
theorem fill_devices_trace :
    ∀ (bs : List BackendObj) (c : List DeviceItem) (t : List String),
      (fill_devices (c, t) bs).2 = t ++ bs.map (fun b => b.backend_id)
  | [], c, t => by simp [fill_devices]
  | b :: bs, c, t => by
    have hcons : fill_devices (c, t) (b :: bs) = fill_devices (fill_step (c, t) b) bs := by
      simp [fill_devices]
    rw [hcons]
    cases hd : b.devices with
    | none =>
      have hstep : fill_step (c, t) b = (c, t ++ [b.backend_id]) := by
        simp [fill_step, hd]
      rw [hstep, fill_devices_trace bs c (t ++ [b.backend_id])]
      simp
    | some ds =>
      have hstep : fill_step (c, t) b =
          (c ++ ds.map (fun d => { d with backend := some b.backend_id }), t ++ [b.backend_id]) := by
        simp [fill_step, hd]
      rw [hstep, fill_devices_trace bs _ (t ++ [b.backend_id])]
      simp

/-- The device component of the cache-fill fold does not depend on the
trace accumulator. -/
theorem fill_devices_fst_trace_indep :
    ∀ (bs : List BackendObj) (c : List DeviceItem) (t t' : List String),
      (fill_devices (c, t) bs).1 = (fill_devices (c, t') bs).1
  | [], _, _, _ => rfl
  | b :: bs, c, t, t' => by
    have hcons : ∀ u : List String,
        fill_devices (c, u) (b :: bs) = fill_devices (fill_step (c, u) b) bs := by
      intro u; simp [fill_devices]
    rw [hcons t, hcons t']
    cases hd : b.devices with
    | none =>
      have hstep : ∀ u : List String, fill_step (c, u) b = (c, u ++ [b.backend_id]) := by
        intro u; simp [fill_step, hd]
      rw [hstep t, hstep t']
      exact fill_devices_fst_trace_indep bs c (t ++ [b.backend_id]) (t' ++ [b.backend_id])
    | some ds =>
      have hstep : ∀ u : List String, fill_step (c, u) b =
          (c ++ ds.map (fun d => { d with backend := some b.backend_id }), u ++ [b.backend_id]) := by
        intro u; simp [fill_step, hd]
      rw [hstep t, hstep t']
      exact fill_devices_fst_trace_indep bs _ (t ++ [b.backend_id]) (t' ++ [b.backend_id])

/-- A backend whose `get_devices()` returns the empty list contributes
nothing to the device component of the cache-fill fold. -/
theorem fill_devices_skip_empty (c : List DeviceItem) (t : List String) (b : BackendObj)
    (hb : b.devices = some []) (l2 : List BackendObj) :
    (fill_devices (c, t) (b :: l2)).1 = (fill_devices (c, t) l2).1 := by
  have hcons : fill_devices (c, t) (b :: l2) = fill_devices (fill_step (c, t) b) l2 := by
    simp [fill_devices]
  have hstep : fill_step (c, t) b = (c, t ++ [b.backend_id]) := by
    simp [fill_step, hb]
  rw [hcons, hstep]
  exact fill_devices_fst_trace_indep l2 c (t ++ [b.backend_id]) t

/-- Reloading an already-reloaded cache changes nothing: the state reached
by `_reload_device_cache_if_empty` is a fixed point of itself. -/
theorem reload_if_empty_stable (st : Middleman) :
    ((st.reload_device_cache_if_empty).1.reload_device_cache_if_empty).1 =
      (st.reload_device_cache_if_empty).1 := by
  obtain ⟨bk, bi, ni, ts, ie, dc⟩ := st
  by_cases h : dc = []
  · subst h
    by_cases hF : (fill_devices (([] : List DeviceItem), ([] : List String)) bk).1 = []
    · simp [Middleman.reload_device_cache_if_empty, hF]
    · simp [Middleman.reload_device_cache_if_empty, hF]
  · simp [Middleman.reload_device_cache_if_empty, h]

/-! Classification predicates for the init() collections. -/

/-- The id is recorded in `backends` (some backend object with that id). -/
def Middleman.inBackends (st : Middleman) (id : String) : Prop :=
  ∃ b ∈ st.backends, b.backend_id = id

/-- The id is recorded in `bad_init`. -/
def Middleman.inBadInit (st : Middleman) (id : String) : Prop :=
  ∃ b ∈ st.bad_init, b.backend_id = id

/-- The id is recorded in `not_installed`. -/
def Middleman.inNotInstalled (st : Middleman) (id : String) : Prop :=
  id ∈ st.not_installed

/-- The id is recorded as a key of `import_errors`. -/
def Middleman.inImportErrors (st : Middleman) (id : String) : Prop :=
  ∃ e ∈ st.import_errors, e.1 = id

/-- The id appears in exactly one of the four classification collections:
one of them holds and the other three do not. -/
def classifiedExactlyOnce (st : Middleman) (id : String) : Prop :=
  (st.inBackends id ∧ ¬ st.inBadInit id ∧ ¬ st.inNotInstalled id ∧ ¬ st.inImportErrors id) ∨
  (¬ st.inBackends id ∧ st.inBadInit id ∧ ¬ st.inNotInstalled id ∧ ¬ st.inImportErrors id) ∨
  (¬ st.inBackends id ∧ ¬ st.inBadInit id ∧ st.inNotInstalled id ∧ ¬ st.inImportErrors id) ∨
  (¬ st.inBackends id ∧ ¬ st.inBadInit id ∧ ¬ st.inNotInstalled id ∧ st.inImportErrors id)

/-- C1: after `Middleman.init()` on a fresh `Middleman`, each known backend
identifier (openrazer and undervolt) is recorded in exactly one of the four
classification collections `backends` / `bad_init` / `not_installed` /
`import_errors`, whatever the outcome of each backend's construction and
`init()` was. -/
theorem middleman_init_classifies_exactly_once (o1 o2 : InitOutcome) (id : String)
    (h : id = openrazer_id ∨ id = undervolt_id) :
    classifiedExactlyOnce (Middleman.new.init o1 o2) id := by
  rcases h with h | h <;> subst h <;> cases o1 <;> cases o2 <;>
    simp [classifiedExactlyOnce, Middleman.inBackends, Middleman.inBadInit,
      Middleman.inNotInstalled, Middleman.inImportErrors, Middleman.init,
      Middleman.attemptBackend, Middleman.new, mkBackend, openrazer_id, undervolt_id]

/-- Witness for C1: both imports fail with `ImportError`; the openrazer id
lands in exactly one collection. -/
theorem middleman_init_classifies_exactly_once_witness :
    classifiedExactlyOnce (Middleman.new.init InitOutcome.importError InitOutcome.importError)
      openrazer_id :=
  middleman_init_classifies_exactly_once InitOutcome.importError InitOutcome.importError
    openrazer_id (Or.inl rfl)

/-- The final state records the id in the collection its own outcome selects:
`backends` on success, `bad_init` on a falsy `init()`, `not_installed` on an
a missing module, `import_errors` (keyed with the message) on any other
exception. -/
def classifiedAs (st : Middleman) (id : String) : InitOutcome → Prop
  | InitOutcome.success bh => mkBackend id bh ∈ st.backends
  | InitOutcome.initFalse bh => mkBackend id bh ∈ st.bad_init
  | InitOutcome.importError => id ∈ st.not_installed
  | InitOutcome.otherError msg => (id, msg) ∈ st.import_errors

/-- C2: isolation of `Middleman.init()`: whatever the outcome of one
backend's construction and `init()` (success, falsy return, import failure,
or any other exception), the other backend is still attempted and
classified according to its own outcome.  `Middleman.init` is a total
function of the two outcomes: every exception is caught and classified,
never propagated to the caller. -/
theorem middleman_init_isolated (o1 o2 : InitOutcome) :
    classifiedAs (Middleman.new.init o1 o2) openrazer_id o1 ∧
    classifiedAs (Middleman.new.init o1 o2) undervolt_id o2 := by
  cases o1 <;> cases o2 <;>
    simp [classifiedAs, Middleman.init, Middleman.attemptBackend, Middleman.new]

/-- C3: calling `get_devices()` twice in succession, with no intervening
invalidation, returns the same list and leaves the same state: the second
call does not re-append backend device lists to the cache. -/
theorem get_devices_twice_same (st : Middleman) :
    ((st.get_devices).2.1.get_devices).1 = (st.get_devices).1 ∧
    ((st.get_devices).2.1.get_devices).2.1 = (st.get_devices).2.1 := by
  have h := reload_if_empty_stable st
  constructor
  · simp only [Middleman.get_devices]
    rw [h]
  · simp only [Middleman.get_devices]
    rw [h]

/-- C4: `invalidate_cache()` followed by `get_devices()` calls
`get_devices()` on each backend in the `backends` list exactly once during
the refill: the trace of backend queries is exactly the backends list, in
order. -/
theorem invalidate_then_get_devices_queries_each_backend_once (st : Middleman) :
    ((st.invalidate_cache).get_devices).2.2 = st.backends.map (fun b => b.backend_id) := by
  simp [Middleman.get_devices, Middleman.invalidate_cache,
    Middleman.reload_device_cache_if_empty, fill_devices_trace]

/-! Concrete objects used in counterexamples and witnesses. -/

/-- A concrete device reported by a demo backend. -/
def demo_device : DeviceItem :=
  { name := "Demo Keyboard"
    serial := "XX0001"
    form_factor := "keyboard"
    real_image := ""
    backend := none }

/-- A concrete running backend reporting one device. -/
def demo_backend : BackendObj :=
  { backend_id := openrazer_id
    devices := some [demo_device]
    byName := fun _ => none
    bySerial := fun _ => none }

/-- A `Middleman` with one running backend and an empty device cache. -/
def demo_state : Middleman :=
  { Middleman.new with backends := [demo_backend] }

/-- Counterexample to C5 as stated: on `demo_state`,
`reload_device_cache()` does not merely clear the cache — it leaves the
cache refilled with the backend's device (different resulting state than
`invalidate_cache()`, whose cache is empty), and it performs one
`get_devices()` backend call while `invalidate_cache()` performs none. -/
theorem invalidate_reload_not_identical :
    (demo_state.reload_device_cache).1.device_cache ≠
      (demo_state.invalidate_cache).device_cache ∧
    (demo_state.reload_device_cache).2 ≠ ([] : List String) := by
  constructor
  · decide
  · decide

/-- C5 amended: `invalidate_cache()` only clears the cache while
`reload_device_cache()` clears and eagerly refills it; the two agree only
up to a following `get_devices()`: in every state, `get_devices()` after
`invalidate_cache()` returns the same device list and reaches the same
state as `get_devices()` after `reload_device_cache()`. -/
theorem invalidate_reload_agree_after_get_devices (st : Middleman) :
    ((st.invalidate_cache).get_devices).1 = (((st.reload_device_cache).1).get_devices).1 ∧
    ((st.invalidate_cache).get_devices).2.1 = (((st.reload_device_cache).1).get_devices).2.1 := by
  have h := reload_if_empty_stable (st.invalidate_cache)
  have hr : st.reload_device_cache = (st.invalidate_cache).reload_device_cache_if_empty := rfl
  constructor
  · simp only [Middleman.get_devices, hr]
    rw [h]
  · simp only [Middleman.get_devices, hr]
    rw [h]

/-- C6: `get_active_effect(zone)` is a first-match scan for an active
`EffectOption`: it returns `none` when no option in the zone is an active
`EffectOption`; it returns the first active `EffectOption` (every earlier
option fails the test); in particular, when exactly one option of the zone
is an active `EffectOption`, it returns that option. -/
theorem get_active_effect_first_active (zone : Zone) :
    ((∀ o ∈ zone.options, (is_effect_option o && o.active) = false) →
      Middleman.get_active_effect zone = none) ∧
    (∀ (l1 : List OptionItem) (x : OptionItem) (l2 : List OptionItem),
      zone.options = l1 ++ x :: l2 → (is_effect_option x && x.active) = true →
      (∀ y ∈ l1, (is_effect_option y && y.active) = false) →
      Middleman.get_active_effect zone = some x) ∧
    (∀ x ∈ zone.options, (is_effect_option x && x.active) = true →
      (∀ y ∈ zone.options, (is_effect_option y && y.active) = true → y = x) →
      Middleman.get_active_effect zone = some x) := by
  refine ⟨?_, ?_, ?_⟩
  · intro h
    exact first_match_eq_none_of _ zone.options h
  · intro l1 x l2 heq hx h1
    unfold Middleman.get_active_effect
    rw [heq]
    exact first_match_of_prefix _ l1 x l2 hx h1
  · intro x hm hx hu
    exact first_match_of_unique _ zone.options x hm hx hu

/-- An active effect option used in witnesses. -/
def demo_effect_active : OptionItem :=
  { uid := "spectrum", kind := OptionKind.effect, active := true, value := 0, parameters := [] }

/-- An inactive effect option used in witnesses. -/
def demo_effect_inactive : OptionItem :=
  { uid := "wave", kind := OptionKind.effect, active := false, value := 0, parameters := [] }

/-- An active slider option (not an effect) used in witnesses. -/
def demo_slider_option : OptionItem :=
  { uid := "brightness", kind := OptionKind.slider, active := true, value := 50, parameters := [] }

/-- A zone whose first active effect option sits after a slider and an
inactive effect. -/
def demo_zone : Zone :=
  { options := [demo_slider_option, demo_effect_inactive, demo_effect_active] }

/-- Witness for C6: on concrete zones, the scan skips the active slider and
the inactive effect and returns the active effect, returns `none` when no
active effect exists, and returns the unique active effect. -/
theorem get_active_effect_first_active_witness :
    Middleman.get_active_effect demo_zone = some demo_effect_active ∧
    Middleman.get_active_effect { options := [demo_slider_option, demo_effect_inactive] } = none ∧
    Middleman.get_active_effect { options := [demo_effect_active] } = some demo_effect_active :=
  ⟨(get_active_effect_first_active demo_zone).2.1
      [demo_slider_option, demo_effect_inactive] demo_effect_active [] rfl
      (by decide) (by decide),
   (get_active_effect_first_active { options := [demo_slider_option, demo_effect_inactive] }).1
      (by decide),
   (get_active_effect_first_active { options := [demo_effect_active] }).2.2
      demo_effect_active (by decide) (by decide) (by decide)⟩

/-- C7: `get_device_by_name` (and likewise `get_device_by_serial`) scans the
backends in registration order: it returns `None` (not an error) when no
backend reports a matching device, and returns the first `DeviceItem` some
backend reports when every earlier backend reports none. -/
theorem get_device_by_name_serial_scan (st : Middleman) (name serial : String) :
    ((∀ b ∈ st.backends, b.byName name = none) →
      st.get_device_by_name name = none) ∧
    (∀ (l1 : List BackendObj) (b : BackendObj) (l2 : List BackendObj) (d : DeviceItem),
      st.backends = l1 ++ b :: l2 → b.byName name = some d →
      (∀ b2 ∈ l1, b2.byName name = none) →
      st.get_device_by_name name = some d) ∧
    ((∀ b ∈ st.backends, b.bySerial serial = none) →
      st.get_device_by_serial serial = none) ∧
    (∀ (l1 : List BackendObj) (b : BackendObj) (l2 : List BackendObj) (d : DeviceItem),
      st.backends = l1 ++ b :: l2 → b.bySerial serial = some d →
      (∀ b2 ∈ l1, b2.bySerial serial = none) →
      st.get_device_by_serial serial = some d) := by
  refine ⟨?_, ?_, ?_, ?_⟩
  · intro h
    exact first_some_eq_none_of _ st.backends h
  · intro l1 b l2 d heq hb h1
    unfold Middleman.get_device_by_name
    rw [heq]
    exact first_some_of_prefix _ l1 b l2 d hb h1
  · intro h
    exact first_some_eq_none_of _ st.backends h
  · intro l1 b l2 d heq hb h1
    unfold Middleman.get_device_by_serial
    rw [heq]
    exact first_some_of_prefix _ l1 b l2 d hb h1

/-- A backend that reports `demo_device` for any name/serial lookup. -/
def demo_lookup_backend : BackendObj :=
  { backend_id := openrazer_id
    devices := some [demo_device]
    byName := fun _ => some demo_device
    bySerial := fun _ => some demo_device }

/-- A `Middleman` whose single backend answers lookups. -/
def demo_lookup_state : Middleman :=
  { Middleman.new with backends := [demo_lookup_backend] }

/-- Witness for C7: the lookup state returns the reported device for both
lookups; `demo_state`, whose backend reports nothing, returns `none`. -/
theorem get_device_by_name_serial_scan_witness :
    demo_lookup_state.get_device_by_name "Demo Keyboard" = some demo_device ∧
    demo_state.get_device_by_name "Demo Keyboard" = none ∧
    demo_lookup_state.get_device_by_serial "XX0001" = some demo_device ∧
    demo_state.get_device_by_serial "XX0001" = none :=
  ⟨(get_device_by_name_serial_scan demo_lookup_state "Demo Keyboard" "XX0001").2.1
      [] demo_lookup_backend [] demo_device rfl rfl (by simp),
   (get_device_by_name_serial_scan demo_state "Demo Keyboard" "XX0001").1
      (by simp [demo_state, demo_backend, Middleman.new]),
   (get_device_by_name_serial_scan demo_lookup_state "Demo Keyboard" "XX0001").2.2.2
      [] demo_lookup_backend [] demo_device rfl rfl (by simp),
   (get_device_by_name_serial_scan demo_state "Demo Keyboard" "XX0001").2.2.1
      (by simp [demo_state, demo_backend, Middleman.new])⟩

/-- C8: `get_default_parameter(option)` is a first-default-or-first scan:
it returns the first parameter whose `default` flag is set (every earlier
parameter unflagged), and when no parameter is marked default it returns
the first parameter of the list (`parameters.head?`, which also covers the
`None` the code returns for an empty parameter list); and
`get_active_parameter(option)` returns the first parameter whose `active`
flag is set, `none` when there is none. -/
theorem parameter_scan_first (o : OptionItem) :
    (∀ (l1 : List Parameter) (p : Parameter) (l2 : List Parameter),
      o.parameters = l1 ++ p :: l2 → p.default = true → (∀ q ∈ l1, q.default = false) →
      Middleman.get_default_parameter o = some p) ∧
    ((∀ p ∈ o.parameters, p.default = false) →
      Middleman.get_default_parameter o = o.parameters.head?) ∧
    (∀ (l1 : List Parameter) (p : Parameter) (l2 : List Parameter),
      o.parameters = l1 ++ p :: l2 → p.active = true → (∀ q ∈ l1, q.active = false) →
      Middleman.get_active_parameter o = some p) ∧
    ((∀ p ∈ o.parameters, p.active = false) →
      Middleman.get_active_parameter o = none) := by
  refine ⟨?_, ?_, ?_, ?_⟩
  · intro l1 p l2 heq hp h1
    have hfm : first_match (fun q => q.default) o.parameters = some p := by
      rw [heq]
      exact first_match_of_prefix _ l1 p l2 hp h1
    cases hl : o.parameters with
    | nil =>
      rw [hl] at heq
      exact absurd heq.symm (by simp)
    | cons p0 rest =>
      rw [hl] at hfm
      simp [Middleman.get_default_parameter, hl, hfm]
  · intro h
    cases hl : o.parameters with
    | nil => simp [Middleman.get_default_parameter, hl]
    | cons p0 rest =>
      rw [hl] at h
      have hfm : first_match (fun q => q.default) (p0 :: rest) = none :=
        first_match_eq_none_of _ (p0 :: rest) h
      simp [Middleman.get_default_parameter, hl, hfm]
  · intro l1 p l2 heq hp h1
    unfold Middleman.get_active_parameter
    rw [heq]
    exact first_match_of_prefix _ l1 p l2 hp h1
  · intro h
    exact first_match_eq_none_of _ o.parameters h

/-- A parameter flagged default but not active. -/
def demo_param_default : Parameter :=
  { data := "single", active := false, default := true, colours_required := 1 }

/-- A parameter flagged active but not default. -/
def demo_param_active : Parameter :=
  { data := "dual", active := true, default := false, colours_required := 2 }

/-- An option whose active parameter precedes its default parameter. -/
def demo_option : OptionItem :=
  { uid := "reactive", kind := OptionKind.effect, active := true, value := 0,
    parameters := [demo_param_active, demo_param_default] }

/-- An option with parameters but none flagged default. -/
def demo_option_nodefault : OptionItem :=
  { uid := "ripple", kind := OptionKind.effect, active := false, value := 0,
    parameters := [demo_param_active] }

/-- An option with parameters but none flagged active. -/
def demo_option_noactive : OptionItem :=
  { uid := "starlight", kind := OptionKind.effect, active := false, value := 0,
    parameters := [demo_param_default] }

/-- Witness for C8: on concrete options the scans return the first default
(skipping a non-default), the first parameter when no default exists, the
first active parameter, and `none` when no parameter is active. -/
theorem parameter_scan_first_witness :
    Middleman.get_default_parameter demo_option = some demo_param_default ∧
    Middleman.get_default_parameter demo_option_nodefault = some demo_param_active ∧
    Middleman.get_active_parameter demo_option = some demo_param_active ∧
    Middleman.get_active_parameter demo_option_noactive = none :=
  ⟨(parameter_scan_first demo_option).1
      [demo_param_active] demo_param_default [] rfl (by decide) (by decide),
   (parameter_scan_first demo_option_nodefault).2.1 (by decide),
   (parameter_scan_first demo_option).2.2.1
      [] demo_param_active [demo_param_default] rfl (by decide) (by decide),
   (parameter_scan_first demo_option_noactive).2.2.2 (by decide)⟩

/-- C9: `UndervoltBackend.apply()` and `UndervoltBackend.save()` are no-ops
apart from emitting one debug string: every attribute of the backend state
is unchanged by either call.  Neither method references any slider object
(the GUI-layer sliders keep their in-memory values), so no slider value can
change either. -/
theorem undervolt_apply_save_noop (b : UndervoltBackend) :
    (b.apply).1 = b ∧ (b.apply).2 = "Apply undervolting settings." ∧
    (b.save).1 = b ∧ (b.save).2 = "Save undervolting settings." :=
  ⟨rfl, rfl, rfl, rfl⟩

/-- C10: `UndervoltBackend.get_devices()` returns the empty list for every
CPU brand string (the constructed `CpuDeviceItem` is never appended), and
therefore the undervolt backend contributes nothing to the device component
of the Middleman cache-fill loop, wherever it sits in the backends list and
whatever cache was accumulated so far. -/
theorem undervolt_get_devices_empty (cpu_brand : String) (l1 l2 : List BackendObj)
    (acc : List DeviceItem × List String) :
    UndervoltBackend.get_devices cpu_brand = [] ∧
    (fill_devices acc (l1 ++ undervolt_backend_obj cpu_brand :: l2)).1 =
      (fill_devices acc (l1 ++ l2)).1 := by
  constructor
  · rfl
  · rw [fill_devices_append acc l1 (undervolt_backend_obj cpu_brand :: l2),
      fill_devices_append acc l1 l2]
    rcases hF : fill_devices acc l1 with ⟨c, t⟩
    exact fill_devices_skip_empty c t (undervolt_backend_obj cpu_brand) rfl l2
